import Mathlib

/-!
# Verification of the Hegemon debate-orchestration core

A shallow embedding, in Lean 4, of the routing, checkpoint, feedback,
revision-limiting, effectiveness-scoring and contradiction-detection logic
of the Hegemon repository, together with theorems settling the behavioural
claims about that logic.

Conventions used throughout:
* Python `float` values are modelled as exact rationals (`ℚ`); every float
  expression relevant here (ratios of integers, fixed decimal weights,
  comparisons) is exact, so no rounding behaviour is lost.
* Python strings are Lean `String`s; helper functions mirror the exact
  Python primitives used by the source (`str.split()`, `str.strip()`,
  `str.lower()`, substring tests, `re.findall` over word characters).
* LangGraph node functions return "update dicts"; an empty update dict is
  modelled as `none`, a non-empty one as `some` of a record holding the
  returned keys.
* Python object identity (needed to talk about shallow versus deep copies
  of the debate state) is modelled, where a claim requires it, by an
  explicit heap mapping list references to list values.
-/

/- ============================================================
   Python string primitives
   ============================================================ -/

/-- Whitespace recognised by Python `str.split()` / `str.strip()`
(ASCII subset: space, tab, newline, carriage return, vertical tab,
form feed). -/
def pyIsSpace (c : Char) : Bool :=
  c == ' ' || c == '\t' || c == '\n' || c == '\r' || c == '\x0b' || c == '\x0c'

/-- Maximal runs of non-separator characters (accumulator-passing so the
kernel can evaluate it); `acc` holds the current run, reversed. -/
def wordsByAux (p : Char → Bool) : List Char → List Char → List (List Char)
  | [], acc => if acc = [] then [] else [acc.reverse]
  | c :: rest, acc =>
    if p c then
      if acc = [] then wordsByAux p rest []
      else acc.reverse :: wordsByAux p rest []
    else wordsByAux p rest (c :: acc)

/-- The maximal runs of characters not satisfying `p`. -/
def wordsBy (p : Char → Bool) (l : List Char) : List (List Char) :=
  wordsByAux p l []

/-- Python `str.lower()` (ASCII): per-character lower-casing. -/
def pyToLower (s : String) : String :=
  String.mk (s.data.map Char.toLower)

/-- Python `s.split()` (no argument): the whitespace-separated words. -/
def pySplit (s : String) : List String :=
  (wordsBy pyIsSpace s.data).map String.mk

/-- Python `" ".join(s.split())` — the whitespace normalisation used by the
structural scorer. -/
def normalizeWs (s : String) : String :=
  String.intercalate " " (pySplit s)

/-- Python `str.strip()` on a character list: drop whitespace from both
ends. -/
def pyStripL (l : List Char) : List Char :=
  (((l.dropWhile pyIsSpace).reverse.dropWhile pyIsSpace)).reverse

/-- Python `str.strip()`. -/
def pyStrip (s : String) : String :=
  String.mk (pyStripL s.data)

/-- Boolean list-prefix test (helper for the substring test below). -/
def isPrefixOfL : List Char → List Char → Bool
  | [], _ => true
  | _ :: _, [] => false
  | a :: as, b :: bs => a == b && isPrefixOfL as bs

/-- Helper for Python's `needle in haystack` on strings: does `needle`
occur as a contiguous run in the haystack? -/
def containsSubL (needle : List Char) : List Char → Bool
  | [] => isPrefixOfL needle []
  | b :: bs => isPrefixOfL needle (b :: bs) || containsSubL needle bs

/-- Python `needle in haystack` for strings. -/
def strContains (haystack needle : String) : Bool :=
  containsSubL needle.data haystack.data

/- ============================================================
   Debate configuration (src/hegemon/config/settings.py, DebateConfig)
   ============================================================ -/

/-- `DebateConfig` from `src/hegemon/config/settings.py`.
Pydantic field constraints (`consensus_threshold` in [0,1],
`max_cycles` in [1,10], `min_cycles` in [1,3]) are carried as hypotheses
where a theorem needs them. -/
structure DebateConfig where
  consensus_threshold : ℚ
  max_cycles : ℕ
  min_cycles : ℕ
deriving DecidableEq

/- ============================================================
   Routing functions
   ============================================================ -/

/-- `should_continue` from `src/hegemon/graph_hitl_v2.py`.  The source reads
`state["current_consensus_score"]` and `state["cycle_count"]` and the
process-wide settings; those are passed explicitly here.  Returns the next
node name exactly as the source does. -/
def should_continue (settings : DebateConfig) (consensus : ℚ) (cycle : ℕ) : String :=
  -- if cycle >= settings.debate.max_cycles
  if settings.max_cycles ≤ cycle then "checkpoint_pre_synthesis"
  else
    -- if consensus >= settings.debate.consensus_threshold
    if settings.consensus_threshold ≤ consensus then
      -- if cycle >= settings.debate.min_cycles
      if settings.min_cycles ≤ cycle then "checkpoint_pre_synthesis"
      else "katalizator"
    else "katalizator"

/-- `should_continue_debate` from `src/hegemon/graph.py`.  The threshold
(0.7) and the hard cycle cap (5) are hard-coded in the source. -/
def should_continue_debate (current_score : ℚ) (current_cycle : ℕ) : String :=
  -- max_cycles = 5, consensus_threshold = 0.7 (local constants in the source)
  if 5 ≤ current_cycle then "synthesize"
  else if (0.7 : ℚ) ≤ current_score then "synthesize"
  else "continue"

/-- One evaluation/routing round of the v2 graph, iterated: at `cycle` the
evaluation stage yields `scores cycle`; `should_continue` then either
selects the pre-synthesis checkpoint (`true`) or loops through
`increment_cycle` (`cycle + 1`, as in `increment_cycle` of
`src/hegemon/graph_hitl_v2.py`) and the next debate round.  `fuel` bounds
the number of routing evaluations inspected. -/
def reachesSynthesisWithin (settings : DebateConfig) (scores : ℕ → ℚ) :
    ℕ → ℕ → Bool
  | _, 0 => false
  | cycle, fuel + 1 =>
    if should_continue settings (scores cycle) cycle = "checkpoint_pre_synthesis" then
      true
    else
      reachesSynthesisWithin settings scores (cycle + 1) fuel

/- ============================================================
   Phase 2.3/2.4 HITL models (src/hegemon/hitl/models.py)
   ============================================================ -/

namespace HitlModels

/-- `CheckpointType` from `src/hegemon/hitl/models.py`. -/
inductive CheckpointType where
  | post_thesis
  | post_evaluation
  | pre_synthesis
deriving DecidableEq

/-- `InterventionMode` from `src/hegemon/hitl/models.py`. -/
inductive InterventionMode where
  | observer
  | reviewer
  | collaborator
deriving DecidableEq

/-- `FeedbackDecision` from `src/hegemon/hitl/models.py`. -/
inductive FeedbackDecision where
  | approve
  | revise
  | reject
  | override
deriving DecidableEq

/-- The `dangerous_chars` list of `HumanFeedback.sanitize_guidance` in
`src/hegemon/hitl/models.py`.  (`Char.ofNat 96` is the backquote.) -/
def dangerous_chars : List Char := ['<', '>', '&', ';', Char.ofNat 96, '$']

/-- `HumanFeedback.sanitize_guidance` from `src/hegemon/hitl/models.py`:
each dangerous character is removed (`str.replace(c, "")`, i.e. a filter),
then the result is stripped. -/
def sanitize_guidance (v : String) : String :=
  pyStrip (String.mk
    (dangerous_chars.foldl (fun acc c => acc.filter (fun x => x ≠ c)) v.data))

/-- `HumanFeedback` from `src/hegemon/hitl/models.py` (the fields the
verified code paths read; `feedback_id` and `timestamp` are fresh
UUID/clock values and are omitted). -/
structure HumanFeedback where
  checkpoint : CheckpointType
  decision : FeedbackDecision
  guidance : String
  priority_claims : List String
  flagged_concerns : List String
deriving DecidableEq

/-- Construction of a `models.py` `HumanFeedback`: pydantic first enforces
the `max_length=10000` constraint on `guidance`, then runs the
`sanitize_guidance` validator (which never raises).  No other validation
exists on this model, so this is the only failure path. -/
def mkHumanFeedback (checkpoint : CheckpointType) (decision : FeedbackDecision)
    (guidance : String) (priority_claims flagged_concerns : List String) :
    Except String HumanFeedback :=
  if 10000 < guidance.length then
    .error "String should have at most 10000 characters"
  else
    .ok ⟨checkpoint, decision, sanitize_guidance guidance,
      priority_claims, flagged_concerns⟩

end HitlModels

/- ============================================================
   Phase 2.3/2.4 HITL state (src/hegemon/schemas_hitl.py, DebateStateHITL)
   ============================================================ -/

/-- `AgentContribution` from `src/hegemon/schemas.py` (fields read by the
verified code paths). -/
structure AgentContribution where
  agent_id : String
  contribution_type : String
  content : String
  cycle : ℕ
  rationale : String
deriving DecidableEq

/-- `DebateStateHITL` from `src/hegemon/schemas_hitl.py` (the `final_plan`
payload is opaque to the verified logic and is modelled as a string). -/
structure DebateStateHITL where
  mission : String
  contributions : List AgentContribution
  cycle_count : ℕ
  current_consensus_score : ℚ
  final_plan : Option String
  current_checkpoint : Option String
  human_feedback : List HitlModels.HumanFeedback
  paused_at : Option String
  intervention_mode : HitlModels.InterventionMode
  revision_count : ℕ
  previous_outputs : List (String × String)
  max_revisions_per_cycle : ℕ
deriving DecidableEq

/-- The test `state.human_feedback and state.human_feedback[-1].decision ==
FeedbackDecision.REJECT` from `should_continue_after_gubernator`
(`src/hegemon/graph_hitl_v3.py`). -/
def lastDecisionIsReject (l : List HitlModels.HumanFeedback) : Bool :=
  match l.getLast? with
  | some fb => fb.decision = HitlModels.FeedbackDecision.reject
  | none => false

/-- `should_continue_after_gubernator` from `src/hegemon/graph_hitl_v3.py`.
Note: unlike `should_continue` of `graph_hitl_v2.py`, this router has no
`min_cycles` test. -/
def should_continue_after_gubernator (settings : DebateConfig)
    (state : DebateStateHITL) : String :=
  if lastDecisionIsReject state.human_feedback then "syntezator"
  else if state.max_revisions_per_cycle ≤ state.revision_count then
    "checkpoint_pre_synthesis"
  else if settings.consensus_threshold ≤ state.current_consensus_score then
    "checkpoint_pre_synthesis"
  else if settings.max_cycles ≤ state.cycle_count then
    "checkpoint_pre_synthesis"
  else "katalizator"

/-- State used by the C2 counterexample: cycle 1, consensus 0.9, no human
feedback yet, no revisions. -/
def c2_state : DebateStateHITL :=
  { mission := "demo mission"
    contributions := []
    cycle_count := 1
    current_consensus_score := 0.9
    final_plan := none
    current_checkpoint := none
    human_feedback := []
    paused_at := none
    intervention_mode := HitlModels.InterventionMode.reviewer
    revision_count := 0
    previous_outputs := []
    max_revisions_per_cycle := 3 }

/- ============================================================
   Revision limiter
   (src/hegemon/hitl/.ipynb_checkpoints/feedback-checkpoint.py and
    src/hegemon/hitl/exceptions.py)
   ============================================================ -/

/-- `MAX_REVISIONS_PER_CHECKPOINT` from the feedback-processing module. -/
def MAX_REVISIONS_PER_CHECKPOINT : ℕ := 3

/-- `MaxRevisionsExceededError` from `src/hegemon/hitl/exceptions.py`
(its three data attributes). -/
structure MaxRevisionsExceededError where
  checkpoint : String
  current_count : ℕ
  max_allowed : ℕ
deriving DecidableEq

/-- Python `dict.get(checkpoint, 0)` on the
`revision_count_per_checkpoint` mapping (modelled as an association
list with unique keys, as a Python dict is). -/
def lookupCount (counts : List (String × ℕ)) (cp : String) : ℕ :=
  ((counts.find? (fun p => p.1 == cp)).map Prod.snd).getD 0

/-- `track_revision` from the feedback-processing module.  The source takes
the debate state and reads `state.get("revision_count_per_checkpoint", {})`;
that mapping is the `counts` argument here.  On success it returns the
update value placed under the `"revision_count_per_checkpoint"` key — a
fresh single-entry mapping (which, the field being a plain `dict` channel
in `DebateState`, replaces the stored mapping). -/
def track_revision (counts : List (String × ℕ)) (cp : String) :
    Except MaxRevisionsExceededError (List (String × ℕ)) :=
  let current_count := lookupCount counts cp
  if MAX_REVISIONS_PER_CHECKPOINT ≤ current_count then
    .error ⟨cp, current_count, MAX_REVISIONS_PER_CHECKPOINT⟩
  else
    .ok [(cp, current_count + 1)]

/-- `n` successive `track_revision` calls for the same checkpoint, each
threading the mapping returned by the previous call (the plain-dict state
channel stores exactly that returned mapping). -/
def iterate_track (cp : String) : ℕ → Except MaxRevisionsExceededError (List (String × ℕ))
  | 0 => .ok []
  | n + 1 =>
    match iterate_track cp n with
    | .error e => .error e
    | .ok counts => track_revision counts cp

/- ============================================================
   Phase 2.1 checkpoint nodes
   (src/hegemon/hitl/.ipynb_checkpoints/checkpoints-checkpoint.py)

   The Phase 2.1 `DebateState` is a Python `TypedDict`; its
   `contributions` entry is a mutable list object.  To reason about the
   snapshot's copy depth we model object identity explicitly: a `Heap`
   maps list references to list values, and the state holds a reference.
   ============================================================ -/

/-- Heap of contribution-list objects, addressed by reference. -/
def Heap : Type := ℕ → List AgentContribution

/-- In-place mutation of the list object at reference `r`. -/
def heapWrite (h : Heap) (r : ℕ) (v : List AgentContribution) : Heap :=
  fun x => if x = r then v else h x

/-- The Phase 2.1 `DebateState` dict (`src/hegemon/schemas.py`), with the
`contributions` entry modelled as a reference into the heap.  (The
`checkpoint_snapshots` mapping is carried alongside in the update record
below rather than nested, to keep the type non-recursive; no verified
claim observes a snapshot of a snapshot.) -/
structure DebateStateRef where
  mission : String
  contributionsRef : ℕ
  current_consensus_score : ℚ
  cycle_count : ℕ
  intervention_mode : String
  current_checkpoint : Option String
  paused_at : Option String
deriving DecidableEq

/-- Python `dict(state)`: a new dict with the same top-level values — the
`contributions` entry of the copy is the same list reference.  Spelled
field by field to make the shallowness explicit. -/
def dictCopy (s : DebateStateRef) : DebateStateRef :=
  { mission := s.mission
    contributionsRef := s.contributionsRef
    current_consensus_score := s.current_consensus_score
    cycle_count := s.cycle_count
    intervention_mode := s.intervention_mode
    current_checkpoint := s.current_checkpoint
    paused_at := s.paused_at }

/-- The observation named by claim C4: mission, cycle number, consensus
score, and the contribution list **by value** (read through the heap). -/
def observeState (h : Heap) (s : DebateStateRef) :
    String × ℕ × ℚ × List AgentContribution :=
  (s.mission, s.cycle_count, s.current_consensus_score, h s.contributionsRef)

/-- `CHECKPOINT_NAMES[checkpoint_type].format(cycle)`: the identifiers are
`"post_thesis_cycle_" + cycle` etc., i.e. type name, `"_cycle_"`, cycle. -/
def checkpointId (checkpoint_type : String) (cycle : ℕ) : String :=
  checkpoint_type ++ "_cycle_" ++ toString cycle

/-- The update dict returned by a Phase 2.1 checkpoint node. -/
structure CheckpointUpdates where
  current_checkpoint : Option String
  paused_at : Option String
  checkpoint_snapshots : List (String × DebateStateRef)
deriving DecidableEq

/-- The node produced by `_create_checkpoint_node` in
`src/hegemon/hitl/.ipynb_checkpoints/checkpoints-checkpoint.py`
(specialised by `checkpoint_type`; `agent_last_executed` only feeds the
metadata log record and is dropped).  `now` stands for
`datetime.now(timezone.utc).isoformat()`.  In observer mode the node
returns the empty update dict (`none`); otherwise it returns the
checkpoint id, the pause timestamp, and the snapshot mapping keyed by the
checkpoint id, where the snapshot is `dict(state)` — a shallow copy. -/
def checkpoint_node_21 (checkpoint_type : String) (now : String)
    (state : DebateStateRef) : Option CheckpointUpdates :=
  if state.intervention_mode = "observer" then none
  else
    let cycle := state.cycle_count
    let checkpoint_id := checkpointId checkpoint_type cycle
    let snapshot := dictCopy state
    some ⟨some checkpoint_id, some now, [(checkpoint_id, snapshot)]⟩

/-- Applying a Phase 2.1 checkpoint node's update dict to the state (the
snapshot mapping is returned separately by the node and merged into the
state's `checkpoint_snapshots`; the two scalar keys overwrite). -/
def applyCheckpointUpdates (state : DebateStateRef) :
    Option CheckpointUpdates → DebateStateRef
  | none => state
  | some u =>
    { state with
        current_checkpoint := u.current_checkpoint
        paused_at := u.paused_at }

/-- Concrete scene for the C4 counterexample: one contribution, live state
pointing at list object 0. -/
def c4_contrib : AgentContribution :=
  ⟨"Katalizator", "thesis", "initial thesis text", 1, "initial rationale"⟩

/-- A later contribution appended in place to the same list object. -/
def c4_contrib2 : AgentContribution :=
  ⟨"Sceptyk", "antithesis", "antithesis text", 1, "second rationale"⟩

/-- Heap before the checkpoint fires: list object 0 holds one entry. -/
def c4_heap0 : Heap := fun _ => [c4_contrib]

/-- Live state at the moment the pre-synthesis checkpoint fires. -/
def c4_state0 : DebateStateRef :=
  { mission := "demo mission"
    contributionsRef := 0
    current_consensus_score := 0.5
    cycle_count := 1
    intervention_mode := "reviewer"
    current_checkpoint := none
    paused_at := none }

/-- The snapshot stored by `checkpoint_node_21` for that scene. -/
def c4_snapshot : DebateStateRef := dictCopy c4_state0

/-- Heap after an in-place append to the live contributions list. -/
def c4_heap1 : Heap := heapWrite c4_heap0 0 (c4_heap0 0 ++ [c4_contrib2])

/- ============================================================
   Phase 2.3/2.4 checkpoint node (src/hegemon/graph_hitl_v3.py,
   create_checkpoint_node)
   ============================================================ -/

/-- Python `{**d, k: v}` on a string-keyed dict modelled as an association
list: replace the binding for `k` (if any) and add `k ↦ v`. -/
def dictInsert (d : List (String × String)) (k v : String) : List (String × String) :=
  (d.filter (fun p => p.1 ≠ k)) ++ [(k, v)]

/-- The update dict returned by the v3 checkpoint node when it does not
skip.  `human_feedback` is an accumulator channel (`operator.add`);
`current_checkpoint` and `paused_at` are reset to `None`;
`revision_count` / `previous_outputs` are present only on a revise
decision; `final_plan_cleared` records the `"final_plan": None` key
written on a reject decision. -/
structure UpdatesV3 where
  human_feedback : List HitlModels.HumanFeedback
  revision_count : Option ℕ
  previous_outputs : Option (List (String × String))
  final_plan_cleared : Bool
deriving DecidableEq

/-- The node produced by `create_checkpoint_node` in
`src/hegemon/graph_hitl_v3.py`.  The handler call
(`handler.handle_checkpoint`, which builds the review package, shows the
UI and returns the human's decision) is the external UI collaborator; its
result is the `feedback` parameter.  In observer mode every checkpoint
except `PRE_SYNTHESIS` returns the empty update dict (`none`). -/
def checkpoint_node_v3 (checkpoint_type : HitlModels.CheckpointType)
    (feedback : HitlModels.HumanFeedback) (state : DebateStateHITL) :
    Option UpdatesV3 :=
  if state.intervention_mode = HitlModels.InterventionMode.observer ∧
      checkpoint_type ≠ HitlModels.CheckpointType.pre_synthesis then
    none
  else
    let base : UpdatesV3 := ⟨[feedback], none, none, false⟩
    if feedback.decision = HitlModels.FeedbackDecision.revise then
      some { base with
        revision_count := some (state.revision_count + 1)
        previous_outputs :=
          match state.contributions.getLast? with
          | some c => some (dictInsert state.previous_outputs c.agent_id c.content)
          | none => none }
    else if feedback.decision = HitlModels.FeedbackDecision.reject then
      some { base with final_plan_cleared := true }
    else
      some base

/-- Applying a v3 checkpoint node result to the state: `none` is the empty
update dict (state unchanged); otherwise `human_feedback` accumulates,
`current_checkpoint` and `paused_at` are cleared, and the optional keys
overwrite. -/
def applyUpdatesV3 (state : DebateStateHITL) : Option UpdatesV3 → DebateStateHITL
  | none => state
  | some u =>
    { state with
        human_feedback := state.human_feedback ++ u.human_feedback
        current_checkpoint := none
        paused_at := none
        revision_count := u.revision_count.getD state.revision_count
        previous_outputs := u.previous_outputs.getD state.previous_outputs
        final_plan := if u.final_plan_cleared then none else state.final_plan }

/-- Observer-mode Phase 2.1 state for the C5 counterexample. -/
def c5_observer_state : DebateStateRef :=
  { mission := "demo mission"
    contributionsRef := 0
    current_consensus_score := 0.5
    cycle_count := 1
    intervention_mode := "observer"
    current_checkpoint := none
    paused_at := none }

/- ============================================================
   Phase 2.1 HITL feedback schema
   (src/hegemon/hitl/.ipynb_checkpoints/schemas-checkpoint.py)
   ============================================================ -/

namespace HitlSchemas

/-- `HumanFeedback` from the Phase 2.1 HITL schemas (`feedback_id` is a
fresh UUID and is omitted; `checkpoint` and `decision` are strings —
`FeedbackDecision` is a `Literal` type alias there). -/
structure HumanFeedback where
  checkpoint : String
  timestamp : String
  decision : String
  guidance : String
  priority_claims : List String
  flagged_concerns : List String
deriving DecidableEq

/-- The `dangerous_patterns` list of `validate_guidance_for_revision`. -/
def dangerous_patterns : List String :=
  ["ignore previous instructions", "disregard all prior", "system:",
   "override all", "jailbreak"]

/-- The first sentence of the min-length validation error raised by
`validate_guidance_for_revision` (the Python message continues
"Please provide specific instructions."). -/
def minGuidanceMsg : String :=
  "Guidance required for revision (min 10 characters)."

/-- `HumanFeedback.validate_guidance_for_revision` from the Phase 2.1
schemas: a revise decision with stripped guidance under 10 characters is
rejected with the min-length error; then guidance is screened against the
injection patterns (on the lower-cased text) and against the 2000-character
cap.  Error values carry the lead sentence of the raised message. -/
def validate_guidance_for_revision (decision v : String) : Except String String :=
  if decision = "revise" ∧ (pyStrip v).length < 10 then
    .error minGuidanceMsg
  else if dangerous_patterns.any (fun p => strContains (pyToLower v) p) then
    .error "Guidance contains potentially dangerous patterns."
  else if 2000 < v.length then
    .error "Guidance too long."
  else .ok v

/-- `HumanFeedback.validate_claim_list_quality` from the Phase 2.1
schemas: at most 20 items, each stripped item at least 5 characters, no
duplicates. -/
def validate_claim_list_quality (v : List String) : Except String (List String) :=
  if 20 < v.length then .error "Too many items."
  else if v.any (fun item => (pyStrip item).length < 5) then
    .error "Item too short."
  else if v.length ≠ v.dedup.length then
    .error "Duplicate items found."
  else .ok v

/-- Construction of a Phase 2.1 `HumanFeedback`: pydantic validates fields
in declaration order — `checkpoint` (min_length 5), `decision` (the
`Literal` alternatives), then the guidance validator (which sees the
already-validated `decision`), then the two claim-list validators. -/
def mkHumanFeedback (checkpoint decision guidance : String)
    (priority_claims flagged_concerns : List String) (timestamp : String) :
    Except String HumanFeedback :=
  if checkpoint.length < 5 then .error "checkpoint too short"
  else if ¬(decision = "approve" ∨ decision = "revise" ∨ decision = "reject" ∨
      decision = "override") then
    .error "invalid decision"
  else
    match validate_guidance_for_revision decision guidance with
    | .error e => .error e
    | .ok g =>
      match validate_claim_list_quality priority_claims with
      | .error e => .error e
      | .ok pc =>
        match validate_claim_list_quality flagged_concerns with
        | .error e => .error e
        | .ok fc => .ok ⟨checkpoint, timestamp, decision, g, pc, fc⟩

end HitlSchemas

/- ============================================================
   Effectiveness scorer, Tier 1
   (src/hegemon/hitl/.ipynb_checkpoints/effectiveness-checkpoint.py)
   ============================================================ -/

/-- The character bigrams of a text, in order (`text[i:i+2]` for
`i < len - 1`); the source collects them into a set, modelled below with
`List.toFinset`. -/
def bigramsL : List Char → List (Char × Char)
  | a :: b :: rest => (a, b) :: bigramsL (b :: rest)
  | _ => []

/-- The `len_ratio` local of `compute_structural_change_score`
(`o` and `r` are the already-normalised texts). -/
def len_ratio (o r : String) : ℚ :=
  |(r.length : ℚ) - (o.length : ℚ)| / ((max (max o.length r.length) 1 : ℕ) : ℚ)

/-- The `word_ratio` local of `compute_structural_change_score`
(`o` and `r` are the already-normalised texts). -/
def word_ratio (o r : String) : ℚ :=
  |((pySplit r).length : ℚ) - ((pySplit o).length : ℚ)| /
    ((max (max (pySplit o).length (pySplit r).length) 1 : ℕ) : ℚ)

/-- `get_char_bigrams(text)` of the source, on the lower-cased text. -/
def bigramSet (t : String) : Finset (Char × Char) :=
  (bigramsL (pyToLower t).data).toFinset

/-- The `jaccard_change` local: one minus the Jaccard similarity of the
two bigram sets (the source guards the division by `union > 0`). -/
def jaccard_change (bo br : Finset (Char × Char)) : ℚ :=
  1 - (if 0 < (bo ∪ br).card then ((bo ∩ br).card : ℚ) / ((bo ∪ br).card : ℚ) else 0)

/-- Body of `compute_structural_change_score` after whitespace
normalisation (`o`, `r` are the normalised texts): weighted average of the
three deltas, clamped to [0, 1]; 0.0 if either bigram set is empty. -/
def structuralCore (o r : String) : ℚ :=
  if bigramSet o = ∅ ∨ bigramSet r = ∅ then 0
  else
    min 1 (max 0 (len_ratio o r * 0.3 + word_ratio o r * 0.3 +
      jaccard_change (bigramSet o) (bigramSet r) * 0.4))

/-- `compute_structural_change_score` from the effectiveness module:
0.0 when either input is empty; otherwise normalise whitespace in both
texts and score them with `structuralCore`. -/
def compute_structural_change_score (original revised : String) : ℚ :=
  if original = "" ∨ revised = "" then 0
  else structuralCore (normalizeWs original) (normalizeWs revised)

/- ============================================================
   Effectiveness scorer, Tier 2 (same module): keyword matching
   ============================================================ -/

/-- A `\w` word character of the `re.findall(r'\b\w+\b', ...)` calls
(ASCII letters, digits, underscore). -/
def isWordChar (c : Char) : Bool :=
  c.isAlphanum || c == '_'

/-- `re.findall(r'\b\w+\b', s)`: the maximal runs of word characters. -/
def findWords (s : String) : List String :=
  (wordsBy (fun c => !isWordChar c) s.data).map String.mk

/-- The `stopwords` set of `compute_keyword_match_score`. -/
def stopwords : List String :=
  ["the", "a", "an", "and", "or", "but", "in", "on", "at", "to", "for",
   "of", "with", "by", "from", "as", "is", "was", "are", "were", "be",
   "been", "being", "have", "has", "had", "do", "does", "did", "will",
   "would", "should", "could", "may", "might", "must", "can", "about",
   "more", "add", "include", "provide", "make", "use", "this", "that",
   "these", "those", "your", "you", "please", "also", "very", "just"]

/-- `compute_keyword_match_score` from the effectiveness module: 0.5 when
the feedback has no guidance; otherwise the fraction of the guidance's
non-stopword keywords (longer than 3 characters) that occur in the
revised text, blended 0.4/0.6 with per-claim coverage when prioritised
claims are present (a claim counts as covered when at least half of its
non-stopword tokens longer than 2 characters occur in the revision). -/
def compute_keyword_match_score (revised : String)
    (feedback : HitlSchemas.HumanFeedback) : ℚ :=
  if feedback.guidance = "" then 0.5
  else
    let guidance_words := findWords (pyToLower feedback.guidance)
    let keywords := guidance_words.filter (fun w => w ∉ stopwords ∧ 3 < w.length)
    if keywords = [] then 0.5
    else
      let revised_lower := pyToLower revised
      let keywords_found := (keywords.filter
        (fun kw => strContains revised_lower kw)).length
      let keyword_score : ℚ := (keywords_found : ℚ) / (keywords.length : ℚ)
      let total_claims := feedback.priority_claims.length
      if 0 < total_claims then
        let claims_found := (feedback.priority_claims.filter (fun claim =>
          let claim_keywords := (findWords (pyToLower claim)).filter
            (fun w => w ∉ stopwords ∧ 2 < w.length)
          claim_keywords ≠ [] ∧
            (claim_keywords.length : ℚ) * 0.5 ≤
              ((claim_keywords.filter
                (fun w => strContains revised_lower w)).length : ℚ))).length
        keyword_score * 0.4 + ((claims_found : ℚ) / (total_claims : ℚ)) * 0.6
      else keyword_score

/- ============================================================
   Contradiction detector
   (src/hegemon/hitl/contradiction_detector.py)
   ============================================================ -/

/-- The `contradiction_pairs` antonym table of
`detect_feedback_contradictions`. -/
def contradiction_pairs : List (List String × List String) :=
  [(["shorter", "brief", "concise", "summarize", "reduce", "minimize"],
    ["longer", "detail", "elaborate", "expand", "more", "comprehensive"]),
   (["simple", "simplify", "basic", "elementary"],
    ["complex", "detailed", "advanced", "comprehensive", "sophisticated"]),
   (["remove", "delete", "omit", "exclude", "eliminate"],
    ["add", "include", "incorporate", "append", "insert"]),
   (["general", "broad", "overview", "high-level"],
    ["specific", "precise", "detailed", "particular", "granular"]),
   (["conservative", "cautious", "careful", "moderate"],
    ["aggressive", "bold", "ambitious", "radical"]),
   (["fast", "quick", "rapid", "immediate"],
    ["slow", "gradual", "careful", "thorough"])]

/-- The per-feedback sub-dict of a contradiction record (the guidance
records carry checkpoint/guidance/timestamp/decision; the
shifting-priorities records carry checkpoint/priority_claims/timestamp). -/
structure ContradictionFeedbackInfo where
  checkpoint : String
  guidance : Option String
  priority_claims : Option (List String)
  timestamp : String
  decision : Option String
deriving DecidableEq

/-- One detected contradiction record. -/
structure Contradiction where
  feedback_1 : ContradictionFeedbackInfo
  feedback_2 : ContradictionFeedbackInfo
  contradiction_type : String
  severity : String
deriving DecidableEq

/-- The `feedback_N` dict built in the antonym loop. -/
def guidanceInfo (fb : HitlSchemas.HumanFeedback) : ContradictionFeedbackInfo :=
  ⟨fb.checkpoint, some fb.guidance, none, fb.timestamp, some fb.decision⟩

/-- The `feedback_N` dict built in the shifting-priorities loop. -/
def claimsInfo (fb : HitlSchemas.HumanFeedback) : ContradictionFeedbackInfo :=
  ⟨fb.checkpoint, none, some fb.priority_claims, fb.timestamp, none⟩

/-- The body of the first (antonym) loop of
`detect_feedback_contradictions` for one pair of feedbacks: skip
same-checkpoint pairs and pairs with an empty guidance; otherwise, for
each antonym group in order, emit a `"moderate"` record per matching
direction (`group_a[0] + " vs " + group_b[0]` and the reverse). -/
def pairContradictions (fb1 fb2 : HitlSchemas.HumanFeedback) : List Contradiction :=
  if fb1.checkpoint = fb2.checkpoint then []
  else
    let guidance1 := if fb1.guidance = "" then "" else pyToLower fb1.guidance
    let guidance2 := if fb2.guidance = "" then "" else pyToLower fb2.guidance
    if guidance1 = "" ∨ guidance2 = "" then []
    else
      contradiction_pairs.flatMap (fun gp =>
        let found_a := gp.1.any (fun w => strContains guidance1 w)
        let found_b := gp.2.any (fun w => strContains guidance2 w)
        let fwd := if found_a && found_b then
            [⟨guidanceInfo fb1, guidanceInfo fb2,
              gp.1.headD "" ++ " vs " ++ gp.2.headD "", "moderate"⟩]
          else []
        let found_b_in_1 := gp.2.any (fun w => strContains guidance1 w)
        let found_a_in_2 := gp.1.any (fun w => strContains guidance2 w)
        let bwd := if found_b_in_1 && found_a_in_2 then
            [⟨guidanceInfo fb1, guidanceInfo fb2,
              gp.2.headD "" ++ " vs " ++ gp.1.headD "", "moderate"⟩]
          else []
        fwd ++ bwd)

/-- The body of the second (shifting-priorities) loop for one pair: a
`"low"`-severity record when both feedbacks carry non-empty prioritised
claim sets (lower-cased) with no overlap. -/
def pairShifting (fb1 fb2 : HitlSchemas.HumanFeedback) : List Contradiction :=
  if fb1.checkpoint = fb2.checkpoint then []
  else
    let claims1 := fb1.priority_claims.map pyToLower
    let claims2 := fb2.priority_claims.map pyToLower
    if claims1 ≠ [] ∧ claims2 ≠ [] ∧ claims1.filter (fun c => c ∈ claims2) = [] then
      [⟨claimsInfo fb1, claimsInfo fb2, "shifting_priorities", "low"⟩]
    else []

/-- All index pairs `i < j` of the Python double loop, as element pairs in
loop order. -/
def orderedPairs {α : Type} : List α → List (α × α)
  | [] => []
  | x :: xs => (xs.map (fun y => (x, y))) ++ orderedPairs xs

/-- `detect_feedback_contradictions` from
`src/hegemon/hitl/contradiction_detector.py` (its
`min_similarity_threshold` parameter is unused by the implementation):
empty for fewer than two entries; otherwise the antonym-loop records for
every ordered pair followed by the shifting-priorities records for every
ordered pair. -/
def detect_feedback_contradictions
    (feedback_history : List HitlSchemas.HumanFeedback) : List Contradiction :=
  if feedback_history.length < 2 then []
  else
    (orderedPairs feedback_history).flatMap (fun p => pairContradictions p.1 p.2) ++
    (orderedPairs feedback_history).flatMap (fun p => pairShifting p.1 p.2)

/-- Feedback fixture for the C9 witness: "make it shorter" at the cycle-1
post-thesis checkpoint. -/
def c9_fb1 : HitlSchemas.HumanFeedback :=
  ⟨"post_thesis_cycle_1", "2025-01-01T00:00:00+00:00", "revise",
    "make it shorter", [], []⟩

/-- Feedback fixture for the C9 witness: "add more detail" at the cycle-2
post-thesis checkpoint. -/
def c9_fb2 : HitlSchemas.HumanFeedback :=
  ⟨"post_thesis_cycle_2", "2025-01-02T00:00:00+00:00", "revise",
    "add more detail", [], []⟩

lemma should_continue_of_cap (settings : DebateConfig) (consensus : ℚ) (cycle : ℕ)
    (h : settings.max_cycles ≤ cycle) :
    should_continue settings consensus cycle = "checkpoint_pre_synthesis" := by
  simp [should_continue, h]

lemma reachesSynthesisWithin_of_fuel (settings : DebateConfig) (scores : ℕ → ℚ) :
    ∀ fuel cycle, 1 ≤ fuel → settings.max_cycles < cycle + fuel →
      reachesSynthesisWithin settings scores cycle fuel = true := by
  intro fuel
  induction fuel with
  | zero => intro cycle h1 _; omega
  | succ f ih =>
    intro cycle _ hlt
    by_cases hcap : settings.max_cycles ≤ cycle
    · simp [reachesSynthesisWithin, should_continue_of_cap settings (scores cycle) cycle hcap]
    · push_neg at hcap
      rw [reachesSynthesisWithin]
      by_cases hroute :
          should_continue settings (scores cycle) cycle = "checkpoint_pre_synthesis"
      · simp [hroute]
      · simp only [hroute, if_neg]
        refine ih (cycle + 1) (by omega) (by omega)

/-- C1.  Whenever `cycle_count >= max_cycles`, both routing functions that
run after the evaluation stage select the synthesis path, no matter what
the consensus score is (the hard cap dominates the threshold and min-cycle
rules); consequently, starting from cycle 1, the v2 debate loop selects
synthesis within at most `max_cycles` routing rounds for every sequence of
consensus scores. -/
theorem C1_hard_cap_terminates :
    (∀ (settings : DebateConfig) (consensus : ℚ) (cycle : ℕ),
        settings.max_cycles ≤ cycle →
        should_continue settings consensus cycle = "checkpoint_pre_synthesis") ∧
    (∀ (score : ℚ) (cycle : ℕ), 5 ≤ cycle →
        should_continue_debate score cycle = "synthesize") ∧
    (∀ (settings : DebateConfig) (scores : ℕ → ℚ), 1 ≤ settings.max_cycles →
        reachesSynthesisWithin settings scores 1 settings.max_cycles = true) := by
  refine ⟨fun settings consensus cycle h => should_continue_of_cap settings consensus cycle h,
    fun score cycle h => by simp [should_continue_debate, h],
    fun settings scores h =>
      reachesSynthesisWithin_of_fuel settings scores settings.max_cycles 1 h (by omega)⟩

/-- Witness for C1 at the default configuration (threshold 0.7, max 5
cycles, min 1): a run whose score never reaches the threshold is still
routed to synthesis by cycle 5. -/
theorem C1_hard_cap_terminates_witness :
    should_continue ⟨0.7, 5, 1⟩ 0 5 = "checkpoint_pre_synthesis" ∧
    should_continue_debate 0 5 = "synthesize" ∧
    reachesSynthesisWithin ⟨0.7, 5, 1⟩ (fun _ => 0) 1 5 = true :=
  ⟨C1_hard_cap_terminates.1 ⟨0.7, 5, 1⟩ 0 5 (le_refl 5),
   C1_hard_cap_terminates.2.1 0 5 (le_refl 5),
   C1_hard_cap_terminates.2.2 ⟨0.7, 5, 1⟩ (fun _ => 0) (by norm_num)⟩

/-- C2 counterexample.  Claim C2 asserts that whenever the threshold is met
at a cycle below `min_cycles`, the routing after the evaluation stage
returns to the thesis stage.  With `min_cycles = 2`, threshold 0.7 and a
score of 0.9 at cycle 1, `should_continue_after_gubernator` of
`src/hegemon/graph_hitl_v3.py` nevertheless routes to the pre-synthesis
checkpoint (it has no `min_cycles` test), while the v2 router honours
`min_cycles`; so the claim is false of the v3 routing function. -/
theorem C2_min_cycles_counterexample :
    should_continue_after_gubernator ⟨0.7, 5, 2⟩ c2_state = "checkpoint_pre_synthesis" ∧
    should_continue_after_gubernator ⟨0.7, 5, 2⟩ c2_state ≠ "katalizator" ∧
    should_continue ⟨0.7, 5, 2⟩ 0.9 1 = "katalizator" := by
  refine ⟨?_, ?_, ?_⟩
  · norm_num [should_continue_after_gubernator, c2_state, lastDecisionIsReject]
  · norm_num [should_continue_after_gubernator, c2_state, lastDecisionIsReject]
    decide
  · norm_num [should_continue]

/-- C2 amended.  For the v2 router (`should_continue`,
`src/hegemon/graph_hitl_v2.py`): when the threshold is met below the hard
cap, routing goes to the pre-synthesis checkpoint iff `min_cycles` is also
reached, and otherwise returns to the debate loop.  The v3 router
(`should_continue_after_gubernator`, `src/hegemon/graph_hitl_v3.py`) has no
`min_cycles` rule: absent a human rejection and with the revision budget
not exhausted, meeting the threshold routes to the pre-synthesis checkpoint
even when `cycle < min_cycles`. -/
theorem C2_threshold_routing :
    (∀ (settings : DebateConfig) (consensus : ℚ) (cycle : ℕ),
        settings.consensus_threshold ≤ consensus →
        cycle < settings.max_cycles →
        ((settings.min_cycles ≤ cycle →
            should_continue settings consensus cycle = "checkpoint_pre_synthesis") ∧
          (cycle < settings.min_cycles →
            should_continue settings consensus cycle = "katalizator"))) ∧
    (∀ (settings : DebateConfig) (state : DebateStateHITL),
        lastDecisionIsReject state.human_feedback = false →
        state.revision_count < state.max_revisions_per_cycle →
        settings.consensus_threshold ≤ state.current_consensus_score →
        should_continue_after_gubernator settings state = "checkpoint_pre_synthesis") := by
  constructor
  · intro settings consensus cycle hthr hcap
    constructor
    · intro hmin
      simp [should_continue, hthr, hmin, Nat.not_le.mpr hcap]
    · intro hmin
      simp [should_continue, hthr, Nat.not_le.mpr hcap, Nat.not_le.mpr hmin]
  · intro settings state hrej hrev hthr
    simp [should_continue_after_gubernator, hrej, hthr, Nat.not_le.mpr hrev]

/-- Witness for C2 amended: threshold met at cycle 2 with `min_cycles = 2`
routes to pre-synthesis; at cycle 1 it loops; the v3 router at the same
sub-`min_cycles` input goes to pre-synthesis. -/
theorem C2_threshold_routing_witness :
    should_continue ⟨0.7, 5, 2⟩ 0.9 2 = "checkpoint_pre_synthesis" ∧
    should_continue ⟨0.7, 5, 2⟩ 0.9 1 = "katalizator" ∧
    should_continue_after_gubernator ⟨0.7, 5, 2⟩ c2_state = "checkpoint_pre_synthesis" :=
  ⟨(C2_threshold_routing.1 ⟨0.7, 5, 2⟩ 0.9 2 (by norm_num) (by norm_num)).1 (by norm_num),
   (C2_threshold_routing.1 ⟨0.7, 5, 2⟩ 0.9 1 (by norm_num) (by norm_num)).2 (by norm_num),
   C2_threshold_routing.2 ⟨0.7, 5, 2⟩ c2_state (by simp [c2_state, lastDecisionIsReject])
     (by norm_num [c2_state]) (by norm_num [c2_state])⟩

/-- C3.  `track_revision` raises `MaxRevisionsExceededError` carrying
`(checkpoint, current_count, max_allowed)` exactly when the recorded count
has reached the ceiling (3), and otherwise returns the count for that
checkpoint incremented by exactly 1; iterating from an empty mapping, the
first three calls succeed with counts 1, 2, 3 and the 4th call for the same
checkpoint raises with `current_count = 3`. -/
theorem C3_revision_limit :
    (∀ (counts : List (String × ℕ)) (cp : String),
        lookupCount counts cp < MAX_REVISIONS_PER_CHECKPOINT →
        track_revision counts cp = .ok [(cp, lookupCount counts cp + 1)]) ∧
    (∀ (counts : List (String × ℕ)) (cp : String),
        MAX_REVISIONS_PER_CHECKPOINT ≤ lookupCount counts cp →
        track_revision counts cp =
          .error ⟨cp, lookupCount counts cp, MAX_REVISIONS_PER_CHECKPOINT⟩) ∧
    (∀ cp : String,
        iterate_track cp 3 = .ok [(cp, 3)] ∧
        iterate_track cp 4 = .error ⟨cp, 3, 3⟩) := by
  have hlook : ∀ (cp : String) (c : ℕ), lookupCount [(cp, c)] cp = c := by
    intro cp c
    simp [lookupCount, List.find?]
  refine ⟨?_, ?_, ?_⟩
  · intro counts cp h
    simp [track_revision, Nat.not_le.mpr h]
  · intro counts cp h
    simp [track_revision, h]
  · intro cp
    have h0 : lookupCount [] cp = 0 := by simp [lookupCount]
    have s1 : iterate_track cp 1 = .ok [(cp, 1)] := by
      simp [iterate_track, track_revision, h0, MAX_REVISIONS_PER_CHECKPOINT]
    have s2 : iterate_track cp 2 = .ok [(cp, 2)] := by
      rw [iterate_track, s1]
      simp [track_revision, hlook cp 1, MAX_REVISIONS_PER_CHECKPOINT]
    have s3 : iterate_track cp 3 = .ok [(cp, 3)] := by
      rw [iterate_track, s2]
      simp [track_revision, hlook cp 2, MAX_REVISIONS_PER_CHECKPOINT]
    refine ⟨s3, ?_⟩
    rw [iterate_track, s3]
    simp [track_revision, hlook cp 3, MAX_REVISIONS_PER_CHECKPOINT]

/-- Witness for C3 at the checkpoint id `"post_thesis_cycle_1"`: the first
call from an empty mapping returns count 1, a call at count 3 raises with
`current_count = 3`, and the 4-call chain raises. -/
theorem C3_revision_limit_witness :
    track_revision [] "post_thesis_cycle_1" = .ok [("post_thesis_cycle_1", 1)] ∧
    track_revision [("post_thesis_cycle_1", 3)] "post_thesis_cycle_1" =
      .error ⟨"post_thesis_cycle_1", 3, 3⟩ ∧
    iterate_track "post_thesis_cycle_1" 4 = .error ⟨"post_thesis_cycle_1", 3, 3⟩ := by
  refine ⟨?_, ?_, (C3_revision_limit.2.2 "post_thesis_cycle_1").2⟩
  · have h := C3_revision_limit.1 [] "post_thesis_cycle_1" (by decide)
    simpa using h
  · have h := C3_revision_limit.2.1 [("post_thesis_cycle_1", 3)] "post_thesis_cycle_1"
      (by decide)
    simpa using h

/-- C4 counterexample.  The snapshot taken by the Phase 2.1 checkpoint node
is `dict(state)` — a shallow copy, not a deep copy: it holds the very same
contributions-list reference as the live state, so an in-place append to
the live list afterwards changes the snapshot's observable contribution
list.  (A deep copy would be unaffected by mutation of the live state.) -/
theorem C4_shallow_snapshot_counterexample :
    checkpoint_node_21 "pre_synthesis" "2025-01-01T00:00:00+00:00" c4_state0 =
      some ⟨some "pre_synthesis_cycle_1", some "2025-01-01T00:00:00+00:00",
        [("pre_synthesis_cycle_1", c4_snapshot)]⟩ ∧
    c4_snapshot.contributionsRef = c4_state0.contributionsRef ∧
    observeState c4_heap1 c4_snapshot ≠ observeState c4_heap0 c4_snapshot := by
  refine ⟨rfl, rfl, ?_⟩
  intro h
  have := congrArg (fun t => t.2.2.2) h
  simp [observeState, c4_heap1, c4_heap0, heapWrite, c4_snapshot, c4_state0,
    dictCopy] at this

/-- C4 amended.  Outside observer mode, the Phase 2.1 checkpoint node
stores a *shallow* (`dict(state)`) snapshot keyed by the checkpoint
identifier `type + "_cycle_" + cycle`, sets `current_checkpoint` and
`paused_at`, and — as long as the heap has not been mutated in place since
capture (state updates in this program replace, rather than mutate, the
contributions list) — restoring from the snapshot reproduces an observably
identical state: same mission, cycle number, consensus score, and
contribution list by value. -/
theorem C4_snapshot_capture_roundtrip :
    ∀ (h : Heap) (checkpoint_type now : String) (state : DebateStateRef),
      state.intervention_mode ≠ "observer" →
      checkpoint_node_21 checkpoint_type now state =
        some ⟨some (checkpointId checkpoint_type state.cycle_count), some now,
          [(checkpointId checkpoint_type state.cycle_count, dictCopy state)]⟩ ∧
      observeState h (dictCopy state) = observeState h state := by
  intro h checkpoint_type now state hmode
  refine ⟨?_, rfl⟩
  simp [checkpoint_node_21, hmode]

/-- Witness for C4 amended, at the concrete scene of the counterexample:
the reviewer-mode state is snapshotted under `"pre_synthesis_cycle_1"` and
the capture-time observation round-trips. -/
theorem C4_snapshot_capture_roundtrip_witness :
    checkpoint_node_21 "pre_synthesis" "2025-01-01T00:00:00+00:00" c4_state0 =
      some ⟨some (checkpointId "pre_synthesis" c4_state0.cycle_count),
        some "2025-01-01T00:00:00+00:00",
        [(checkpointId "pre_synthesis" c4_state0.cycle_count, dictCopy c4_state0)]⟩ ∧
    observeState c4_heap0 (dictCopy c4_state0) = observeState c4_heap0 c4_state0 :=
  C4_snapshot_capture_roundtrip c4_heap0 "pre_synthesis" "2025-01-01T00:00:00+00:00"
    c4_state0 (by decide)

/-- C5 counterexample.  The claim says the pre-synthesis checkpoint still
fires even in observer mode.  The Phase 2.1 checkpoint node
(`src/hegemon/hitl/.ipynb_checkpoints/checkpoints-checkpoint.py`) skips
*every* checkpoint in observer mode — including `pre_synthesis`: at an
observer-mode state it returns the empty update dict, so no pause marker,
no timestamp and no snapshot are ever set. -/
theorem C5_observer_pre_synthesis_counterexample :
    checkpoint_node_21 "pre_synthesis" "2025-01-01T00:00:00+00:00" c5_observer_state
      = none ∧
    applyCheckpointUpdates c5_observer_state
      (checkpoint_node_21 "pre_synthesis" "2025-01-01T00:00:00+00:00" c5_observer_state)
      = c5_observer_state :=
  ⟨rfl, rfl⟩

/-- C5 amended.  In observer mode, a non-pre-synthesis checkpoint call is a
no-op in both implementations: the v3 node and the Phase 2.1 node return
the empty update dict and the state is unchanged (no pause).  The v3 node's
pre-synthesis checkpoint still fires in observer mode (it never returns the
empty dict), but the Phase 2.1 nodes skip **all** checkpoints in observer
mode, the pre-synthesis one included. -/
theorem C5_observer_mode_skip :
    (∀ (ct : HitlModels.CheckpointType) (fb : HitlModels.HumanFeedback)
        (state : DebateStateHITL),
        state.intervention_mode = HitlModels.InterventionMode.observer →
        ct ≠ HitlModels.CheckpointType.pre_synthesis →
        checkpoint_node_v3 ct fb state = none ∧
        applyUpdatesV3 state (checkpoint_node_v3 ct fb state) = state) ∧
    (∀ (fb : HitlModels.HumanFeedback) (state : DebateStateHITL),
        checkpoint_node_v3 HitlModels.CheckpointType.pre_synthesis fb state ≠ none) ∧
    (∀ (checkpoint_type now : String) (state : DebateStateRef),
        state.intervention_mode = "observer" →
        checkpoint_node_21 checkpoint_type now state = none ∧
        applyCheckpointUpdates state (checkpoint_node_21 checkpoint_type now state)
          = state) := by
  refine ⟨?_, ?_, ?_⟩
  · intro ct fb state hmode hct
    have hskip : checkpoint_node_v3 ct fb state = none := by
      simp [checkpoint_node_v3, hmode, hct]
    exact ⟨hskip, by rw [hskip]; rfl⟩
  · intro fb state
    rcases hdec : fb.decision <;>
      simp [checkpoint_node_v3, hdec]
  · intro checkpoint_type now state hmode
    have hskip : checkpoint_node_21 checkpoint_type now state = none := by
      simp [checkpoint_node_21, hmode]
    exact ⟨hskip, by rw [hskip]; rfl⟩

/-- Witness for C5 amended: an observer-mode v3 state at the post-thesis
checkpoint is untouched, while the pre-synthesis node still returns a
non-empty update; the Phase 2.1 node at the observer state is a no-op. -/
theorem C5_observer_mode_skip_witness :
    (checkpoint_node_v3 HitlModels.CheckpointType.post_thesis
        ⟨HitlModels.CheckpointType.post_thesis, HitlModels.FeedbackDecision.approve,
          "", [], []⟩
        { c2_state with intervention_mode := HitlModels.InterventionMode.observer }
      = none) ∧
    (checkpoint_node_v3 HitlModels.CheckpointType.pre_synthesis
        ⟨HitlModels.CheckpointType.pre_synthesis, HitlModels.FeedbackDecision.approve,
          "", [], []⟩
        { c2_state with intervention_mode := HitlModels.InterventionMode.observer }
      ≠ none) ∧
    checkpoint_node_21 "post_thesis" "2025-01-01T00:00:00+00:00" c5_observer_state
      = none :=
  ⟨(C5_observer_mode_skip.1 HitlModels.CheckpointType.post_thesis
      ⟨HitlModels.CheckpointType.post_thesis, HitlModels.FeedbackDecision.approve,
        "", [], []⟩
      { c2_state with intervention_mode := HitlModels.InterventionMode.observer }
      rfl (by decide)).1,
   C5_observer_mode_skip.2.1
      ⟨HitlModels.CheckpointType.pre_synthesis, HitlModels.FeedbackDecision.approve,
        "", [], []⟩
      { c2_state with intervention_mode := HitlModels.InterventionMode.observer },
   (C5_observer_mode_skip.2.2 "post_thesis" "2025-01-01T00:00:00+00:00"
      c5_observer_state rfl).1⟩

/-- C6 counterexample.  The Phase 2.3 `HumanFeedback`
(`src/hegemon/hitl/models.py`) performs no minimum-length validation: the
feedback with decision `revise` and guidance `"ok"` (2 characters) is
accepted at construction (only sanitised), so the claim that such a value
"fails at construction" is false of that model. -/
theorem C6_short_guidance_accepted_counterexample :
    HitlModels.mkHumanFeedback HitlModels.CheckpointType.post_thesis
      HitlModels.FeedbackDecision.revise "ok" [] [] =
      .ok ⟨HitlModels.CheckpointType.post_thesis,
        HitlModels.FeedbackDecision.revise, "ok", [], []⟩ := rfl

/-- C6 amended.  The Phase 2.1 `HumanFeedback`
(`hitl/.ipynb_checkpoints/schemas-checkpoint.py`) rejects, at
construction, a revise decision whose stripped guidance is under 10
characters, with the validation error citing the minimum length; the
Phase 2.3 `HumanFeedback` (`src/hegemon/hitl/models.py`) has no such
check and accepts revise feedback with arbitrarily short guidance of at
most 10000 characters, merely sanitising it. -/
theorem C6_revise_guidance_validation :
    (∀ (cp g ts : String) (pc fc : List String),
        ¬cp.length < 5 →
        (pyStrip g).length < 10 →
        HitlSchemas.mkHumanFeedback cp "revise" g pc fc ts =
          .error HitlSchemas.minGuidanceMsg) ∧
    (∀ (ct : HitlModels.CheckpointType) (pc fc : List String),
        HitlModels.mkHumanFeedback ct HitlModels.FeedbackDecision.revise "ok" pc fc =
          .ok ⟨ct, HitlModels.FeedbackDecision.revise, "ok", pc, fc⟩) := by
  constructor
  · intro cp g ts pc fc hcp hg
    simp [HitlSchemas.mkHumanFeedback, hcp,
      HitlSchemas.validate_guidance_for_revision, hg]
  · intro ct pc fc
    rfl

/-- Witness for C6 amended: the feedback
`(decision := "revise", guidance := "ok")` is rejected by the Phase 2.1
constructor with the min-length error, and accepted unchanged by the
Phase 2.3 constructor. -/
theorem C6_revise_guidance_validation_witness :
    HitlSchemas.mkHumanFeedback "post_thesis_cycle_1" "revise" "ok" [] []
        "2025-01-01T00:00:00+00:00" = .error HitlSchemas.minGuidanceMsg ∧
    HitlModels.mkHumanFeedback HitlModels.CheckpointType.post_thesis
      HitlModels.FeedbackDecision.revise "ok" [] [] =
      .ok ⟨HitlModels.CheckpointType.post_thesis,
        HitlModels.FeedbackDecision.revise, "ok", [], []⟩ :=
  ⟨C6_revise_guidance_validation.1 "post_thesis_cycle_1" "ok"
      "2025-01-01T00:00:00+00:00" [] [] (by decide) (by decide),
   C6_revise_guidance_validation.2 HitlModels.CheckpointType.post_thesis [] []⟩

lemma mem_foldl_filter (ds : List Char) :
    ∀ (l : List Char) (c : Char),
      c ∈ ds.foldl (fun acc d => acc.filter (fun x => x ≠ d)) l → c ∈ l ∧ c ∉ ds := by
  induction ds with
  | nil => intro l c h; simpa using h
  | cons d ds ih =>
    intro l c h
    rw [List.foldl_cons] at h
    obtain ⟨hmem, hnot⟩ := ih (l.filter (fun x => x ≠ d)) c h
    rw [List.mem_filter] at hmem
    obtain ⟨hl, hd⟩ := hmem
    simp only [decide_eq_true_eq] at hd
    exact ⟨hl, by simp [hd, hnot]⟩

lemma pyStripL_head_not_space (l : List Char) (c : Char)
    (h : (pyStripL l).head? = some c) : pyIsSpace c = false := by
  unfold pyStripL at h
  rw [List.head?_reverse] at h
  set A := l.dropWhile pyIsSpace with hA
  set B := A.reverse.dropWhile pyIsSpace with hB
  have hBne : B ≠ [] := by
    intro hnil
    rw [hnil] at h
    simp at h
  obtain ⟨t, ht⟩ : B <:+ A.reverse := by
    rw [hB]; exact List.dropWhile_suffix _
  have hlast : A.reverse.getLast? = some c := by
    rw [← ht, List.getLast?_append_of_ne_nil t hBne, h]
  rw [List.getLast?_reverse] at hlast
  have := List.head?_dropWhile_not pyIsSpace l
  rw [← hA, hlast] at this
  exact this

lemma pyStripL_getLast_not_space (l : List Char) (c : Char)
    (h : (pyStripL l).getLast? = some c) : pyIsSpace c = false := by
  unfold pyStripL at h
  rw [List.getLast?_reverse] at h
  have := List.head?_dropWhile_not pyIsSpace (l.dropWhile pyIsSpace).reverse
  rw [h] at this
  exact this

lemma pyStripL_subset (l : List Char) (c : Char) (h : c ∈ pyStripL l) : c ∈ l := by
  unfold pyStripL at h
  rw [List.mem_reverse] at h
  have h1 : c ∈ (l.dropWhile pyIsSpace).reverse :=
    (List.dropWhile_suffix pyIsSpace).subset h
  rw [List.mem_reverse] at h1
  exact (List.dropWhile_suffix pyIsSpace).subset h1

/-- C10.  For every guidance string, the `models.py` sanitiser removes all
of the characters `<`, `>`, `&`, `;`, backquote, `$` and strips the
result: the sanitised guidance contains none of the dangerous characters
and has no leading or trailing whitespace.  Construction of a `models.py`
`HumanFeedback` never fails because of such characters: for any guidance
within the 10000-character field bound, construction succeeds (for every
decision) and stores exactly the sanitised guidance. -/
theorem C10_guidance_sanitized :
    ∀ (v : String),
      (∀ c, c ∈ (HitlModels.sanitize_guidance v).data →
        c ∉ HitlModels.dangerous_chars) ∧
      (∀ c, (HitlModels.sanitize_guidance v).data.head? = some c →
        pyIsSpace c = false) ∧
      (∀ c, (HitlModels.sanitize_guidance v).data.getLast? = some c →
        pyIsSpace c = false) ∧
      (∀ (ct : HitlModels.CheckpointType) (d : HitlModels.FeedbackDecision)
          (pc fc : List String),
        v.length ≤ 10000 →
        HitlModels.mkHumanFeedback ct d v pc fc =
          .ok ⟨ct, d, HitlModels.sanitize_guidance v, pc, fc⟩) := by
  intro v
  have hdata : (HitlModels.sanitize_guidance v).data =
      pyStripL (HitlModels.dangerous_chars.foldl
        (fun acc c => acc.filter (fun x => x ≠ c)) v.data) := rfl
  refine ⟨?_, ?_, ?_, ?_⟩
  · intro c hc
    rw [hdata] at hc
    exact (mem_foldl_filter HitlModels.dangerous_chars v.data c
      (pyStripL_subset _ c hc)).2
  · intro c hc
    rw [hdata] at hc
    exact pyStripL_head_not_space _ c hc
  · intro c hc
    rw [hdata] at hc
    exact pyStripL_getLast_not_space _ c hc
  · intro ct d pc fc hlen
    simp [HitlModels.mkHumanFeedback, Nat.not_lt.mpr hlen]

/-- Witness for C10 at the guidance `" <ok;> "`, which sanitises to
`"ok"`: the first character of the sanitised text is not whitespace, the
last is not whitespace, a sanitised character is not dangerous, and
construction with that guidance succeeds storing `"ok"`. -/
theorem C10_guidance_sanitized_witness :
    ('o' ∉ HitlModels.dangerous_chars) ∧
    pyIsSpace 'o' = false ∧
    pyIsSpace 'k' = false ∧
    HitlModels.mkHumanFeedback HitlModels.CheckpointType.post_thesis
      HitlModels.FeedbackDecision.revise " <ok;> " [] [] =
      .ok ⟨HitlModels.CheckpointType.post_thesis,
        HitlModels.FeedbackDecision.revise,
        HitlModels.sanitize_guidance " <ok;> ", [], []⟩ :=
  ⟨(C10_guidance_sanitized " <ok;> ").1 'o' (by decide),
   (C10_guidance_sanitized " <ok;> ").2.1 'o' (by decide),
   (C10_guidance_sanitized " <ok;> ").2.2.1 'k' (by decide),
   (C10_guidance_sanitized " <ok;> ").2.2.2 HitlModels.CheckpointType.post_thesis
     HitlModels.FeedbackDecision.revise [] [] (by decide)⟩

lemma structuralCore_range (o r : String) :
    0 ≤ structuralCore o r ∧ structuralCore o r ≤ 1 := by
  constructor
  · unfold structuralCore
    split_ifs with h
    · norm_num
    · exact le_min (by norm_num) (le_max_left 0 _)
  · unfold structuralCore
    split_ifs with h
    · norm_num
    · exact min_le_left 1 _

lemma structuralCore_self (o : String) : structuralCore o o = 0 := by
  by_cases hB : bigramSet o = ∅
  · simp [structuralCore, hB]
  · have hpos : 0 < (bigramSet o ∪ bigramSet o).card := by
      rw [Finset.union_self]
      exact Finset.card_pos.mpr (Finset.nonempty_iff_ne_empty.mpr hB)
    unfold structuralCore
    rw [if_neg (by simp [hB])]
    unfold len_ratio word_ratio jaccard_change
    rw [if_pos hpos, Finset.inter_self, Finset.union_self]
    rw [div_self (by exact_mod_cast (Finset.card_pos.mpr
      (Finset.nonempty_iff_ne_empty.mpr hB)).ne')]
    simp

/-- C7.  The structural change score is always within [0, 1]; it is
exactly 0 on identical non-empty inputs, and exactly 0 whenever either
input is the empty string. -/
theorem C7_structural_score_range_zero :
    ∀ (original revised x : String),
      (0 ≤ compute_structural_change_score original revised ∧
        compute_structural_change_score original revised ≤ 1) ∧
      (x ≠ "" → compute_structural_change_score x x = 0) ∧
      (original = "" ∨ revised = "" →
        compute_structural_change_score original revised = 0) := by
  intro original revised x
  refine ⟨?_, ?_, ?_⟩
  · unfold compute_structural_change_score
    split_ifs with h
    · norm_num
    · exact structuralCore_range _ _
  · intro hx
    unfold compute_structural_change_score
    rw [if_neg (by simp [hx])]
    exact structuralCore_self _
  · intro h
    unfold compute_structural_change_score
    rw [if_pos h]

/-- Witness for C7: the score of the identical non-empty pair
`("abc", "abc")` is exactly 0, and the score with an empty first argument
is exactly 0. -/
theorem C7_structural_score_range_zero_witness :
    compute_structural_change_score "abc" "abc" = 0 ∧
    compute_structural_change_score "" "xyz" = 0 :=
  ⟨(C7_structural_score_range_zero "abc" "abc" "abc").2.1 (by decide),
   (C7_structural_score_range_zero "" "xyz" "x").2.2 (Or.inl rfl)⟩

/-- C8.  For every revised text, the keyword match score is exactly the
neutral 0.5 when the feedback carries no guidance text. -/
theorem C8_no_guidance_neutral :
    ∀ (revised : String) (feedback : HitlSchemas.HumanFeedback),
      feedback.guidance = "" →
      compute_keyword_match_score revised feedback = 0.5 := by
  intro revised feedback h
  simp [compute_keyword_match_score, h]

/-- Witness for C8: guidance-free approve feedback scores exactly 0.5
against an arbitrary revision. -/
theorem C8_no_guidance_neutral_witness :
    compute_keyword_match_score "a revised draft"
      ⟨"post_thesis_cycle_1", "2025-01-01T00:00:00+00:00", "approve",
        "", [], []⟩ = 0.5 :=
  C8_no_guidance_neutral "a revised draft"
    ⟨"post_thesis_cycle_1", "2025-01-01T00:00:00+00:00", "approve",
      "", [], []⟩ rfl

lemma eq_of_mem_ite_singleton {α : Type} {b : Prop} [Decidable b] {x c : α}
    (h : c ∈ (if b then [x] else [])) : c = x := by
  split_ifs at h with hb
  · simpa using h
  · simp at h

lemma pairContradictions_fields (fb1 fb2 : HitlSchemas.HumanFeedback)
    (c : Contradiction) (hc : c ∈ pairContradictions fb1 fb2) :
    c.feedback_1.checkpoint = fb1.checkpoint ∧
      c.feedback_2.checkpoint = fb2.checkpoint ∧
      fb1.checkpoint ≠ fb2.checkpoint := by
  unfold pairContradictions at hc
  by_cases h1 : fb1.checkpoint = fb2.checkpoint
  · rw [if_pos h1] at hc
    simp at hc
  · rw [if_neg h1] at hc
    dsimp only at hc
    by_cases h2 :
        (if fb1.guidance = "" then "" else pyToLower fb1.guidance) = "" ∨
          (if fb2.guidance = "" then "" else pyToLower fb2.guidance) = ""
    · rw [if_pos h2] at hc
      simp at hc
    · rw [if_neg h2, List.mem_flatMap] at hc
      obtain ⟨gp, _, hcgp⟩ := hc
      rw [List.mem_append] at hcgp
      rcases hcgp with hm | hm
      · have hcx := eq_of_mem_ite_singleton hm
        subst hcx
        exact ⟨rfl, rfl, h1⟩
      · have hcx := eq_of_mem_ite_singleton hm
        subst hcx
        exact ⟨rfl, rfl, h1⟩

lemma pairShifting_fields (fb1 fb2 : HitlSchemas.HumanFeedback)
    (c : Contradiction) (hc : c ∈ pairShifting fb1 fb2) :
    c.feedback_1.checkpoint = fb1.checkpoint ∧
      c.feedback_2.checkpoint = fb2.checkpoint ∧
      fb1.checkpoint ≠ fb2.checkpoint := by
  unfold pairShifting at hc
  by_cases h1 : fb1.checkpoint = fb2.checkpoint
  · rw [if_pos h1] at hc
    simp at hc
  · rw [if_neg h1] at hc
    dsimp only at hc
    split_ifs at hc with h2
    · have hcx : c = ⟨claimsInfo fb1, claimsInfo fb2, "shifting_priorities", "low"⟩ := by
        simpa using hc
      subst hcx
      exact ⟨rfl, rfl, h1⟩
    · simp at hc

/-- C9.  The contradiction detector returns the empty list for every
feedback history with fewer than two entries, and every contradiction it
ever returns pairs two feedback items with distinct checkpoint
identifiers (same-checkpoint pairs are skipped by both loops). -/
theorem C9_detect_contradictions_properties :
    (∀ h : List HitlSchemas.HumanFeedback, h.length < 2 →
        detect_feedback_contradictions h = []) ∧
    (∀ (h : List HitlSchemas.HumanFeedback) (c : Contradiction),
        c ∈ detect_feedback_contradictions h →
        c.feedback_1.checkpoint ≠ c.feedback_2.checkpoint) := by
  constructor
  · intro h hlen
    simp [detect_feedback_contradictions, hlen]
  · intro h c hc
    unfold detect_feedback_contradictions at hc
    split_ifs at hc with hlen
    · simp at hc
    · rw [List.mem_append] at hc
      rcases hc with hm | hm
      · rw [List.mem_flatMap] at hm
        obtain ⟨p, _, hp⟩ := hm
        obtain ⟨e1, e2, hne⟩ := pairContradictions_fields p.1 p.2 c hp
        rw [e1, e2]
        exact hne
      · rw [List.mem_flatMap] at hm
        obtain ⟨p, _, hp⟩ := hm
        obtain ⟨e1, e2, hne⟩ := pairShifting_fields p.1 p.2 c hp
        rw [e1, e2]
        exact hne

/-- Witness for C9: the empty history and a singleton history detect
nothing, and the "shorter"-vs-"detail" contradiction actually found on a
two-checkpoint history has distinct checkpoints. -/
theorem C9_detect_contradictions_properties_witness :
    detect_feedback_contradictions [] = [] ∧
    detect_feedback_contradictions [c9_fb1] = [] ∧
    ("post_thesis_cycle_1" : String) ≠ "post_thesis_cycle_2" :=
  ⟨C9_detect_contradictions_properties.1 [] (by decide),
   C9_detect_contradictions_properties.1 [c9_fb1] (by decide),
   C9_detect_contradictions_properties.2 [c9_fb1, c9_fb2]
     ⟨guidanceInfo c9_fb1, guidanceInfo c9_fb2, "shorter vs longer", "moderate"⟩
     (by decide)⟩
